import Mathlib

/-!
Shallow embedding of the elastio_task weather CLI
(src/main.rs, src/prompt_agent.rs, src/provider/mod.rs,
src/provider/weather_api.rs, src/provider/open_weather_map.rs).

External collaborators are modelled explicitly:
 - the HTTP transport (reqwest) and JSON decoding (serde) are modelled by
   response oracles; every outbound request the code builds is logged in order;
 - the chrono date library is modelled by executable Lean functions,
   documented at their definitions;
 - the confy persisted-configuration store is modelled by an explicit
   ApplicationConfig value threaded through process_command, plus a log of
   write attempts;
 - f64 payload fields are never computed with by the program, only carried
   and rendered, so they are modelled opaquely by their decimal rendering;
 - a Rust panic (an .expect call) is modelled as a distinguished error
   variant, clearly named.
-/

namespace Elastio

/-- Opaque model of an f64 payload value: the program performs no arithmetic on
these fields, it only carries them and renders them into URLs or JSON, so we
keep the decimal rendering itself. -/
abbrev F64 := String

/-- Model of chrono NaiveDate: a (year, month, day) triple.  The program only
constructs these through parse_from_str, which validates the triple. -/
structure NaiveDate where
  year : Int
  month : Nat
  day : Nat
deriving DecidableEq, Repr

/-- Proleptic-Gregorian leap-year rule, as used by chrono. -/
def isLeapYear (y : Int) : Bool :=
  (y % 4 == 0 && y % 100 != 0) || (y % 400 == 0)

/-- Number of days in a month of the proleptic Gregorian calendar
(0 for an out-of-range month number). -/
def daysInMonth (y : Int) (m : Nat) : Nat :=
  match m with
  | 1 => 31
  | 2 => if isLeapYear y then 29 else 28
  | 3 => 31
  | 4 => 30
  | 5 => 31
  | 6 => 30
  | 7 => 31
  | 8 => 31
  | 9 => 30
  | 10 => 31
  | 11 => 30
  | 12 => 31
  | _ => 0

/-- Calendar validity of a (year, month, day) triple, as enforced by chrono
when constructing a NaiveDate. -/
def validYmd (y : Int) (m d : Nat) : Bool :=
  decide (1 ≤ m) && decide (m ≤ 12) && decide (1 ≤ d) && decide (d ≤ daysInMonth y m)

/-- Days since 1970-01-01 of a calendar date (the standard civil-calendar
day-number computation, in its floor-division form).  This is the basis both of
the chrono Ord comparison on NaiveDate (NaiveDate.cmp below) and of the
signed-duration num_days computation the code performs on date differences. -/
def NaiveDate.toEpochDays (dt : NaiveDate) : Int :=
  let y : Int := if dt.month ≤ 2 then dt.year - 1 else dt.year
  let era : Int := Int.fdiv y 400
  let yoe : Int := y - era * 400
  let mp : Int := Int.fmod (Int.ofNat dt.month + 9) 12
  let doy : Int := Int.fdiv (153 * mp + 2) 5 + Int.ofNat dt.day - 1
  let doe : Int := yoe * 365 + Int.fdiv yoe 4 - Int.fdiv yoe 100 + doy
  era * 146097 + doe - 719468

/-- Model of chrono's Ord on NaiveDate: for valid calendar dates chrono's
ordering is exactly the calendar (day-number) ordering. -/
def NaiveDate.cmp (a b : NaiveDate) : Ordering :=
  if a.toEpochDays < b.toEpochDays then .lt
  else if b.toEpochDays < a.toEpochDays then .gt
  else .eq

/-- Numeric value of a list of ASCII digit characters. -/
def digitsToNat (cs : List Char) : Nat :=
  cs.foldl (fun acc c => acc * 10 + (c.toNat - Char.toNat '0')) 0

/-- Split a character list at every dash, keeping empty components (the
behavior of splitting a string on the separator "-"). -/
def splitOnDash (cs : List Char) : List (List Char) :=
  match cs with
  | [] => [[]]
  | c :: rest =>
    if c = '-' then [] :: splitOnDash rest
    else
      match splitOnDash rest with
      | [] => [[c]]
      | g :: gs => (c :: g) :: gs

/-- Model of chrono NaiveDate::parse_from_str(s, "%Y-%m-%d") on unsigned
inputs: three dash-separated all-digit components, the year at least one digit,
month and day one or two digits each, and the resulting triple must be a valid
calendar date (e.g. "2000-12-32" parses the components but fails validation,
exactly as chrono rejects it). -/
def parse_from_str (s : String) : Option NaiveDate :=
  match splitOnDash s.toList with
  | [yc, mc, dc] =>
    if (!yc.isEmpty && yc.all Char.isDigit
        && (mc.length == 1 || mc.length == 2) && mc.all Char.isDigit
        && (dc.length == 1 || dc.length == 2) && dc.all Char.isDigit) then
      let y : Int := Int.ofNat (digitsToNat yc)
      let m : Nat := digitsToNat mc
      let d : Nat := digitsToNat dc
      if validYmd y m d then some ⟨y, m, d⟩ else none
    else none
  | _ => none

/-- Model of the Rust regex check from PromptAgent::process_command for the
pattern caret-backslash-d-4-dash-d-2-dash-d-2-dollar: exactly ten characters,
four digits, a dash, two digits, a dash, two digits (the digit class modelled
as ASCII digits, which covers every input the claims quantify over). -/
def date_time_regex_is_match (s : String) : Bool :=
  match s.toList with
  | [y1, y2, y3, y4, h1, m1, m2, h2, d1, d2] =>
    y1.isDigit && y2.isDigit && y3.isDigit && y4.isDigit && h1 == '-'
      && m1.isDigit && m2.isDigit && h2 == '-' && d1.isDigit && d2.isDigit
  | _ => false

/-- An outbound HTTP GET request, as the code builds it with Url::parse and
query_pairs_mut: the base endpoint and the appended (key, value) pairs in
order.  Percent-encoding of values is a transport concern and is abstracted. -/
structure HttpRequest where
  base : String
  pairs : List (String × String)
deriving DecidableEq, Repr

/-! ### weather_api data shapes (src/provider/weather_api.rs) -/

namespace weather_api

structure ConditionInfo where
  text : String
deriving DecidableEq, Repr

structure Location where
  name : String
  region : String
  country : String
deriving DecidableEq, Repr

structure WeatherInfo where
  temp_c : F64
  temp_f : F64
  condition : ConditionInfo
deriving DecidableEq, Repr

structure Day where
  avgtemp_c : F64
  avgtemp_f : F64
  maxwind_mph : F64
  maxwind_kph : F64
  condition : ConditionInfo
deriving DecidableEq, Repr

structure ForecastDay where
  day : Day
deriving DecidableEq, Repr

structure Forecast where
  forecastday : List ForecastDay
deriving DecidableEq, Repr

structure TimedWeatherData where
  forecast : Forecast
  location : Location
deriving DecidableEq, Repr

structure CurrentWeatherData where
  current : WeatherInfo
  location : Location
deriving DecidableEq, Repr

end weather_api

/-! ### open_weather_map data shapes (src/provider/open_weather_map.rs) -/

namespace open_weather_map

structure Coordinates where
  lon : F64
  lat : F64
deriving DecidableEq, Repr

structure ConditionInfo where
  main : String
  description : String
deriving DecidableEq, Repr

structure WeatherInfo where
  temp : F64
  feels_like : F64
  pressure : Int
  humidity : Int
  wind_speed : F64
  wind_deg : Int
  weather : List ConditionInfo
deriving DecidableEq, Repr

structure CurrentWeatherData where
  current : WeatherInfo
  timezone : String
  lat : F64
  lon : F64
deriving DecidableEq, Repr

structure TimedWeatherData where
  data : List WeatherInfo
  timezone : String
  lat : F64
  lon : F64
deriving DecidableEq, Repr

end open_weather_map

/-- The Weather output enumeration from src/provider/mod.rs. -/
inductive Weather
  | FromOpenWeatherMapCurrent (d : open_weather_map.CurrentWeatherData)
  | FromOpenWeatherMapTimed (d : open_weather_map.TimedWeatherData)
  | FromWeatherApiCurrent (d : weather_api.CurrentWeatherData)
  | FromWeatherApiTimed (d : weather_api.TimedWeatherData)
deriving DecidableEq, Repr

/-- The error outcomes a provider operation can produce (anyhow errors in the
source, distinguished here by their origin):
 - dateParse: the chrono ParseError propagated by the question-mark operator
   when NaiveDate::parse_from_str fails;
 - upstream: a reqwest transport error or serde decode failure, wrapped by
   with_context;
 - invalidForecastData: the "weather-api returned invalid data" error raised
   when the returned forecastday series is empty;
 - noCoordinates: the "No coordinates found for address" error from
   OpenWeatherMap::get_coordinates_per_place. -/
inductive WeatherError
  | dateParse
  | upstream (msg : String)
  | invalidForecastData
  | noCoordinates (address : String)
deriving DecidableEq, Repr

/-! ### Request builders (the Url construction in each provider method) -/

/-- URL built by WeatherApi::get_current_weather_data. -/
def wapi_current_request (api_key address : String) : HttpRequest :=
  { base := "http://api.weatherapi.com/v1/current.json"
    pairs := [("key", api_key), ("q", address), ("aqi", "no")] }

/-- URL built by WeatherApi::get_forecast_weather_data. -/
def forecast_request (api_key address : String) (days_from_now : Int) : HttpRequest :=
  { base := "http://api.weatherapi.com/v1/forecast.json"
    pairs := [("key", api_key), ("q", address), ("days", toString days_from_now),
              ("aqi", "no"), ("alerts", "no")] }

/-- URL built by WeatherApi::get_history_weather_data. -/
def history_request (api_key address date : String) : HttpRequest :=
  { base := "http://api.weatherapi.com/v1/history.json"
    pairs := [("key", api_key), ("q", address), ("dt", date)] }

/-- URL built by OpenWeatherMap::get_coordinates_per_place. -/
def geo_request (api_key address : String) : HttpRequest :=
  { base := "http://api.openweathermap.org/geo/1.0/direct"
    pairs := [("q", address), ("limit", "1"), ("appid", api_key)] }

/-- URL built by OpenWeatherMap::get_current_weather_parsed_data. -/
def onecall_request (api_key : String) (coords : open_weather_map.Coordinates) : HttpRequest :=
  { base := "https://api.openweathermap.org/data/3.0/onecall"
    pairs := [("lat", coords.lat), ("lon", coords.lon), ("exclude", "daily"),
              ("exclude", "minutely"), ("exclude", "hourly"), ("appid", api_key),
              ("units", "metric")] }

/-- URL built by OpenWeatherMap::get_timed_weather_parsed_data. -/
def timemachine_request (api_key : String) (coords : open_weather_map.Coordinates)
    (timestamp : Int) : HttpRequest :=
  { base := "https://api.openweathermap.org/data/3.0/onecall/timemachine"
    pairs := [("lat", coords.lat), ("lon", coords.lon), ("dt", toString timestamp),
              ("appid", api_key), ("units", "metric")] }

/-- Response oracle for the weather-api vendor: what the composed
get_response + serde decode step yields for a given request.  Both the
forecast.json and history.json endpoints decode to TimedWeatherData, so they
share one oracle component. -/
structure WeatherApiNet where
  timed : HttpRequest → Except String weather_api.TimedWeatherData
  current : HttpRequest → Except String weather_api.CurrentWeatherData

/-- Response oracle for the openweathermap vendor. -/
structure OpenWeatherMapNet where
  geo : HttpRequest → Except String (List open_weather_map.Coordinates)
  onecall : HttpRequest → Except String open_weather_map.CurrentWeatherData
  timemachine : HttpRequest → Except String open_weather_map.TimedWeatherData

namespace WeatherApi

/-- WeatherApi::get_current_weather_data: build the current.json request,
issue it, decode, and wrap as FromWeatherApiCurrent.  Second component: the
requests issued. -/
def get_current_weather_data (api_key : String) (net : WeatherApiNet) (address : String) :
    Except WeatherError Weather × List HttpRequest :=
  match net.current (wapi_current_request api_key address) with
  | .error e => (.error (.upstream e), [wapi_current_request api_key address])
  | .ok response => (.ok (.FromWeatherApiCurrent response), [wapi_current_request api_key address])

/-- WeatherApi::get_forecast_weather_data: build the forecast.json request
with the given days parameter, issue it, then keep only the last element of
the returned forecastday series (erroring when the series is empty). -/
def get_forecast_weather_data (api_key : String) (net : WeatherApiNet) (address : String)
    (days_from_now : Int) : Except WeatherError Weather × List HttpRequest :=
  match net.timed (forecast_request api_key address days_from_now) with
  | .error e => (.error (.upstream e), [forecast_request api_key address days_from_now])
  | .ok response =>
    match response.forecast.forecastday.getLast? with
    | none => (.error .invalidForecastData, [forecast_request api_key address days_from_now])
    | some last_day =>
      (.ok (.FromWeatherApiTimed { forecast := { forecastday := [last_day] },
                                   location := response.location }),
       [forecast_request api_key address days_from_now])

/-- WeatherApi::get_history_weather_data: build the history.json request with
the dt parameter set to the exact date string, issue it, wrap the decoded
response. -/
def get_history_weather_data (api_key : String) (net : WeatherApiNet) (address date : String) :
    Except WeatherError Weather × List HttpRequest :=
  match net.timed (history_request api_key address date) with
  | .error e => (.error (.upstream e), [history_request api_key address date])
  | .ok response => (.ok (.FromWeatherApiTimed response), [history_request api_key address date])

/-- WeatherApi::get_timed_weather_data: parse the date, compare it with
today's date (Local::now().date_naive(), passed in as now_date), and route:
strictly greater routes to the forecast query with
(date minus now in days) + 1 as the days parameter, anything else routes to
the history query for the exact date string. -/
def get_timed_weather_data (api_key : String) (net : WeatherApiNet) (now_date : NaiveDate)
    (address date : String) : Except WeatherError Weather × List HttpRequest :=
  match parse_from_str date with
  | none => (.error .dateParse, [])
  | some date_date =>
    match date_date.cmp now_date with
    | .gt =>
      get_forecast_weather_data api_key net address
        ((date_date.toEpochDays - now_date.toEpochDays) + 1)
    | _ => get_history_weather_data api_key net address date

/-- Provider-trait method get_current_weather for WeatherApi (a plain
wrapper around get_current_weather_data). -/
def get_current_weather (api_key : String) (net : WeatherApiNet) (address : String) :
    Except WeatherError Weather × List HttpRequest :=
  get_current_weather_data api_key net address

/-- Provider-trait method get_timed_weather for WeatherApi (a plain wrapper
around get_timed_weather_data). -/
def get_timed_weather (api_key : String) (net : WeatherApiNet) (now_date : NaiveDate)
    (address date : String) : Except WeatherError Weather × List HttpRequest :=
  get_timed_weather_data api_key net now_date address date

end WeatherApi

namespace OpenWeatherMap

/-- OpenWeatherMap::get_coordinates_per_place: issue the geocoding request,
take the first element of the decoded coordinate list (response.get(0)), and
report the no-coordinates error when the list is empty. -/
def get_coordinates_per_place (api_key : String) (net : OpenWeatherMapNet) (address : String) :
    Except WeatherError open_weather_map.Coordinates × List HttpRequest :=
  match net.geo (geo_request api_key address) with
  | .error e => (.error (.upstream e), [geo_request api_key address])
  | .ok response =>
    match response.head? with
    | some coordinates => (.ok coordinates, [geo_request api_key address])
    | none => (.error (.noCoordinates address), [geo_request api_key address])

/-- OpenWeatherMap::get_current_weather_parsed_data. -/
def get_current_weather_parsed_data (api_key : String) (net : OpenWeatherMapNet)
    (coords : open_weather_map.Coordinates) : Except WeatherError Weather × List HttpRequest :=
  match net.onecall (onecall_request api_key coords) with
  | .error e => (.error (.upstream e), [onecall_request api_key coords])
  | .ok response => (.ok (.FromOpenWeatherMapCurrent response), [onecall_request api_key coords])

/-- OpenWeatherMap::get_timed_weather_parsed_data. -/
def get_timed_weather_parsed_data (api_key : String) (net : OpenWeatherMapNet)
    (coords : open_weather_map.Coordinates) (timestamp : Int) :
    Except WeatherError Weather × List HttpRequest :=
  match net.timemachine (timemachine_request api_key coords timestamp) with
  | .error e => (.error (.upstream e), [timemachine_request api_key coords timestamp])
  | .ok response =>
    (.ok (.FromOpenWeatherMapTimed response), [timemachine_request api_key coords timestamp])

/-- Provider-trait method get_current_weather for OpenWeatherMap: geocode
first, propagating its failure, then query the onecall endpoint with the
resolved coordinates. -/
def get_current_weather (api_key : String) (net : OpenWeatherMapNet) (address : String) :
    Except WeatherError Weather × List HttpRequest :=
  match get_coordinates_per_place api_key net address with
  | (.error e, reqs) => (.error e, reqs)
  | (.ok place_coords, reqs) =>
    match get_current_weather_parsed_data api_key net place_coords with
    | (r, reqs2) => (r, reqs ++ reqs2)

/-- Provider-trait method get_timed_weather for OpenWeatherMap: parse the
date (propagating chrono's failure before any request), form the midday-UTC
timestamp of that date (seconds of NaiveDateTime::new(date, 12:00:00)), then
geocode and query the timemachine endpoint. -/
def get_timed_weather (api_key : String) (net : OpenWeatherMapNet) (address date : String) :
    Except WeatherError Weather × List HttpRequest :=
  match parse_from_str date with
  | none => (.error .dateParse, [])
  | some datetime =>
    match get_coordinates_per_place api_key net address with
    | (.error e, reqs) => (.error e, reqs)
    | (.ok place_coords, reqs) =>
      match get_timed_weather_parsed_data api_key net place_coords
          (datetime.toEpochDays * 86400 + 12 * 3600) with
      | (r, reqs2) => (r, reqs ++ reqs2)

end OpenWeatherMap

/-! ### Provider registry and prompt agent (src/provider/mod.rs, src/prompt_agent.rs) -/

/-- The ProviderName enumeration from src/provider/mod.rs. -/
inductive ProviderName
  | OpenWeatherMap
  | WeatherApi
deriving DecidableEq, Repr

/-- Default impl for ProviderName. -/
def ProviderName.default : ProviderName := .OpenWeatherMap

/-- The strum Display rendering (SCREAMING_SNAKE_CASE of the variant name),
used as the environment-variable name of each provider's credential. -/
def ProviderName.toString : ProviderName → String
  | .OpenWeatherMap => "OPEN_WEATHER_MAP"
  | .WeatherApi => "WEATHER_API"

/-- The strum EnumIter iteration order: variants in declaration order. -/
def ProviderName.iter : List ProviderName := [.OpenWeatherMap, .WeatherApi]

/-- ProviderName::get_pretty_name: lowercase the canonical name and replace
underscores with dashes. -/
def ProviderName.get_pretty_name (p : ProviderName) : String :=
  (p.toString.toLower).replace ("_") ("-")

/-- Ambient effect context for one command: today's date
(Local::now().date_naive()), the two vendors' response oracles, and the
outcome confy::store would report for a write attempt. -/
structure NetCtx where
  today : NaiveDate
  wapi : WeatherApiNet
  owm : OpenWeatherMapNet
  confy_store : Except String Unit

/-- Dynamic dispatch of Provider::get_current_weather through the boxed
client manufactured by ProviderName::get_provider_instance. -/
def dispatch_get_current (name : ProviderName) (api_key : String) (ctx : NetCtx)
    (address : String) : Except WeatherError Weather × List HttpRequest :=
  match name with
  | .OpenWeatherMap => OpenWeatherMap.get_current_weather api_key ctx.owm address
  | .WeatherApi => WeatherApi.get_current_weather api_key ctx.wapi address

/-- Dynamic dispatch of Provider::get_timed_weather through the boxed client
manufactured by ProviderName::get_provider_instance. -/
def dispatch_get_timed (name : ProviderName) (api_key : String) (ctx : NetCtx)
    (address date : String) : Except WeatherError Weather × List HttpRequest :=
  match name with
  | .OpenWeatherMap => OpenWeatherMap.get_timed_weather api_key ctx.owm address date
  | .WeatherApi => WeatherApi.get_timed_weather api_key ctx.wapi ctx.today address date

/-- The SpaceTimeConfig clap argument pair. -/
structure SpaceTimeConfig where
  address : String
  date : Option String
deriving DecidableEq, Repr

/-- The InputSubcommand enumeration. -/
inductive InputSubcommand
  | Configure (provider_name : ProviderName)
  | Get (cfg : SpaceTimeConfig)
  | CurrentProvider
deriving DecidableEq, Repr

/-- The persisted ApplicationConfig record (confy). -/
structure ApplicationConfig where
  provider_name : ProviderName
deriving DecidableEq, Repr

/-- The PromptAgent state: the active provider name and the credential bound
into its boxed client.  The Box dyn Provider field of the Rust struct is
fully determined by this pair through ProviderName::get_provider_instance, so
the pair is what we carry. -/
structure PromptAgent where
  current_provider_name : ProviderName
  current_provider_key : String
deriving DecidableEq, Repr

/-- The error outcomes of process_command:
 - invalidDateFormat: the "Entered date should be in the YYYY-MM-DD format"
   error raised when the regex guard fails;
 - weather: a provider error propagated by the question-mark operator;
 - configStore: the "There was an issue while updating configuration file"
   error when confy::store fails. -/
inductive CommandError
  | invalidDateFormat
  | weather (e : WeatherError)
  | configStore (msg : String)
deriving DecidableEq, Repr

/-- The println outputs of process_command, one constructor per print site:
weatherOn is the "-- Weather for address on date" block, currentWeather the
"-- Current weather for address" block, alreadyInUse the
"-- Provider p is already in use." line, changingProvider the
"-- Changing provider: old to new." line, providerChanged the
"-- Provider was successfully changed." line, and currentProvider the
"-- Current provider: p." line. -/
inductive Output
  | weatherOn (address date : String) (w : Weather)
  | currentWeather (address : String) (w : Weather)
  | alreadyInUse (p : ProviderName)
  | changingProvider (oldp newp : ProviderName)
  | providerChanged
  | currentProvider (p : ProviderName)
deriving DecidableEq, Repr

/-- Observable effects of one process_command call: its Result, the persisted
configuration afterwards, the write attempts made to it, the lines printed,
and the HTTP requests issued. -/
structure CommandEffects where
  result : Except CommandError Unit
  store : ApplicationConfig
  writes : List ApplicationConfig
  stdout : List Output
  requests : List HttpRequest
deriving Repr

/-- PromptAgent::process_command.  The receiver is immutable (the Rust method
takes a shared reference), so the agent value is an input only; the persisted
configuration is threaded explicitly. -/
def process_command (agent : PromptAgent) (ctx : NetCtx) (store : ApplicationConfig)
    (cmd : InputSubcommand) : CommandEffects :=
  match cmd with
  | .Get space_time_config =>
    match space_time_config.date with
    | some date =>
      if date_time_regex_is_match date then
        match dispatch_get_timed agent.current_provider_name agent.current_provider_key
            ctx space_time_config.address date with
        | (.error e, reqs) => ⟨.error (.weather e), store, [], [], reqs⟩
        | (.ok weather, reqs) =>
          ⟨.ok (), store, [], [.weatherOn space_time_config.address date weather], reqs⟩
      else ⟨.error .invalidDateFormat, store, [], [], []⟩
    | none =>
      match dispatch_get_current agent.current_provider_name agent.current_provider_key
          ctx space_time_config.address with
      | (.error e, reqs) => ⟨.error (.weather e), store, [], [], reqs⟩
      | (.ok weather, reqs) =>
        ⟨.ok (), store, [], [.currentWeather space_time_config.address weather], reqs⟩
  | .Configure provider_name =>
    if provider_name = agent.current_provider_name then
      ⟨.ok (), store, [], [.alreadyInUse agent.current_provider_name], []⟩
    else
      match ctx.confy_store with
      | .ok _ =>
        ⟨.ok (), ⟨provider_name⟩, [⟨provider_name⟩],
         [.changingProvider agent.current_provider_name provider_name, .providerChanged], []⟩
      | .error err =>
        ⟨.error (.configStore err), store, [],
         [.changingProvider agent.current_provider_name provider_name], []⟩
  | .CurrentProvider =>
    ⟨.ok (), store, [], [.currentProvider agent.current_provider_name], []⟩

/-- The loop body of PromptAgent::get_available_providers: walk the remaining
provider names, read each one's environment variable, early-return the first
missing name (the with_context error names it), otherwise insert into the
accumulated map. -/
def get_available_providers_go (envVar : String → Option String) :
    List ProviderName → (ProviderName → Option String) →
    Except ProviderName (ProviderName → Option String)
  | [], available_providers => .ok available_providers
  | provider_name :: rest, available_providers =>
    match envVar provider_name.toString with
    | none => .error provider_name
    | some api_key =>
      get_available_providers_go envVar rest
        (fun q => if q = provider_name then some api_key else available_providers q)

/-- PromptAgent::get_available_providers, over the process environment
(modelled as a partial map from variable name to value).  The error payload is
the provider name the message reports as missing. -/
def get_available_providers (envVar : String → Option String) :
    Except ProviderName (ProviderName → Option String) :=
  get_available_providers_go envVar ProviderName.iter (fun _ => none)

/-- The error outcomes of PromptAgent::new:
 - configError: confy::load failed ("Failed to retrieve config");
 - missingCredential: get_available_providers failed for the named provider;
 - panicMissingKey: the .expect("Couldn't retrieve required api_key") panic,
   modelled as a distinguished error. -/
inductive NewError
  | configError (msg : String)
  | missingCredential (p : ProviderName)
  | panicMissingKey
deriving DecidableEq, Repr

/-- The credential-lookup tail of PromptAgent::new: look the persisted
provider name up in the available-providers map and bind its key, hitting the
expect panic when it is absent.  The source contains no fallback to another
identifier here and prints nothing, which the empty Output list records. -/
def new_from_available (available_providers : ProviderName → Option String)
    (provider_name : ProviderName) : Except NewError PromptAgent × List Output :=
  match available_providers provider_name with
  | none => (.error .panicMissingKey, [])
  | some provider_key => (.ok ⟨provider_name, provider_key⟩, [])

/-- PromptAgent::new: read the persisted configuration (confy::load outcome
passed in), load the credential map, and bind the persisted provider's key. -/
def PromptAgent.new (envVar : String → Option String)
    (config : Except String ApplicationConfig) : Except NewError PromptAgent :=
  match config with
  | .error err => .error (.configError err)
  | .ok cfg =>
    match get_available_providers envVar with
    | .error p => .error (.missingCredential p)
    | .ok available_providers => (new_from_available available_providers cfg.provider_name).1

/-! ### Concrete fixtures used by witnesses and counterexamples -/

/-- Oracle in which every weather-api call fails at transport. -/
def trivialWapiNet : WeatherApiNet :=
  { timed := fun _ => .error ("offline"), current := fun _ => .error ("offline") }

/-- Oracle in which every openweathermap call fails at transport. -/
def trivialOwmNet : OpenWeatherMapNet :=
  { geo := fun _ => .error ("offline"), onecall := fun _ => .error ("offline")
    timemachine := fun _ => .error ("offline") }

/-- A concrete effect context: today is 2023-04-10, network offline,
configuration writes succeed. -/
def ctx0 : NetCtx :=
  { today := ⟨2023, 4, 10⟩, wapi := trivialWapiNet, owm := trivialOwmNet
    confy_store := .ok () }

/-- A concrete agent whose active provider is OpenWeatherMap. -/
def agent0 : PromptAgent := ⟨.OpenWeatherMap, "key0"⟩

/-- A concrete forecast day payload. -/
def sampleDay (t : String) : weather_api.Day := ⟨t, t, t, t, ⟨t⟩⟩

/-- A concrete location payload. -/
def sampleLocation : weather_api.Location := ⟨"Kyiv", "Kyivska", "Ukraine"⟩

/-- A three-day forecast series, of which only the last day must survive. -/
def sampleSeries : weather_api.TimedWeatherData :=
  ⟨⟨[⟨sampleDay "d1"⟩, ⟨sampleDay "d2"⟩, ⟨sampleDay "d3"⟩]⟩, sampleLocation⟩

/-- Oracle in which every timed weather-api call returns sampleSeries. -/
def forecastNet : WeatherApiNet :=
  { timed := fun _ => .ok sampleSeries, current := fun _ => .error ("offline") }

/-- Two concrete coordinate records. -/
def coord0 : open_weather_map.Coordinates := ⟨"24.02", "49.53"⟩

/-- A second concrete coordinate record. -/
def coord1 : open_weather_map.Coordinates := ⟨"30.52", "50.45"⟩

/-- Oracle whose geocoding lookup returns zero matches. -/
def owmNetEmpty : OpenWeatherMapNet :=
  { geo := fun _ => .ok [], onecall := fun _ => .error ("offline")
    timemachine := fun _ => .error ("offline") }

/-- Oracle whose geocoding lookup returns two matches. -/
def owmNetTwo : OpenWeatherMapNet :=
  { geo := fun _ => .ok [coord0, coord1], onecall := fun _ => .error ("offline")
    timemachine := fun _ => .error ("offline") }

/-- A concrete environment carrying both providers' credentials. -/
def envVar0 : String → Option String :=
  fun s =>
    if s = "OPEN_WEATHER_MAP" then some ("owm-key")
    else if s = "WEATHER_API" then some ("wapi-key")
    else none

/-- The credential map get_available_providers builds from envVar0. -/
def m0 : ProviderName → Option String :=
  fun q =>
    if q = ProviderName.WeatherApi then some ("wapi-key")
    else if q = ProviderName.OpenWeatherMap then some ("owm-key")
    else none

/-- A credential map missing the WeatherApi entry (reachable only by
bypassing get_available_providers, whose all-or-nothing behavior is proved
separately; used to exhibit the behavior of the lookup step itself). -/
def mMissingWapi : ProviderName → Option String :=
  fun q => if q = ProviderName.OpenWeatherMap then some ("owm-key") else none

/-! ### Helper lemmas -/

/-- The history query logs exactly its own request, whatever the oracle
answers. -/
theorem history_requests_eq (api_key : String) (net : WeatherApiNet) (address date : String) :
    (WeatherApi.get_history_weather_data api_key net address date).2 =
      [history_request api_key address date] := by
  unfold WeatherApi.get_history_weather_data
  cases net.timed (history_request api_key address date) <;> rfl

/-- The forecast query logs exactly its own request, whatever the oracle
answers. -/
theorem forecast_requests_eq (api_key : String) (net : WeatherApiNet) (address : String)
    (days_from_now : Int) :
    (WeatherApi.get_forecast_weather_data api_key net address days_from_now).2 =
      [forecast_request api_key address days_from_now] := by
  unfold WeatherApi.get_forecast_weather_data
  cases h : net.timed (forecast_request api_key address days_from_now) with
  | error e => rfl
  | ok response => cases hl : response.forecast.forecastday.getLast? <;> simp [hl]

/-- Core specification of get_available_providers: it either fails naming a
provider whose environment variable is absent, or returns a map defined at
every provider name. -/
theorem available_providers_spec (envVar : String → Option String) :
    (∃ p, get_available_providers envVar = .error p ∧ envVar p.toString = none) ∨
    (∃ m, get_available_providers envVar = .ok m ∧ ∀ p, (m p).isSome = true) := by
  cases h1 : envVar ("OPEN_WEATHER_MAP") with
  | none =>
    refine .inl ⟨.OpenWeatherMap, ?_, h1⟩
    simp [get_available_providers, get_available_providers_go, ProviderName.iter,
      ProviderName.toString, h1]
  | some k1 =>
    cases h2 : envVar ("WEATHER_API") with
    | none =>
      refine .inl ⟨.WeatherApi, ?_, h2⟩
      simp [get_available_providers, get_available_providers_go, ProviderName.iter,
        ProviderName.toString, h1, h2]
    | some k2 =>
      refine .inr ⟨fun q =>
        if q = ProviderName.WeatherApi then some k2
        else if q = ProviderName.OpenWeatherMap then some k1 else none, ?_, ?_⟩
      · simp [get_available_providers, get_available_providers_go, ProviderName.iter,
          ProviderName.toString, h1, h2]
      · intro p; cases p <;> simp

/-- An agent produced by PromptAgent.new from a successfully loaded
configuration carries that configuration's provider name as its active one. -/
theorem new_ok_name (envVar : String → Option String) (cfg : ApplicationConfig)
    (agent : PromptAgent) (h : PromptAgent.new envVar (.ok cfg) = .ok agent) :
    agent.current_provider_name = cfg.provider_name := by
  simp only [PromptAgent.new] at h
  cases hap : get_available_providers envVar with
  | error q => rw [hap] at h; simp at h
  | ok m =>
    rw [hap] at h
    simp only [new_from_available] at h
    cases hm : m cfg.provider_name with
    | none => rw [hm] at h; simp at h
    | some k =>
      rw [hm] at h
      simp at h
      rw [← h]

/-- The timemachine query of OpenWeatherMap logs exactly its own request,
whatever the oracle answers. -/
theorem owm_timed_parsed_requests_eq (api_key : String) (net : OpenWeatherMapNet)
    (coords : open_weather_map.Coordinates) (timestamp : Int) :
    (OpenWeatherMap.get_timed_weather_parsed_data api_key net coords timestamp).2 =
      [timemachine_request api_key coords timestamp] := by
  unfold OpenWeatherMap.get_timed_weather_parsed_data
  cases net.timemachine (timemachine_request api_key coords timestamp) <;> rfl

/-! ### Claim theorems -/

/-- C1: for every date string matching the YYYY-MM-DD pattern which denotes a
valid calendar date, WeatherApi's timed-weather operation routes by comparing
the parsed date with today's date: past-or-today dates route to the
historical query for that exact date string, strictly future dates route to
the forecast query, and these two cases are exhaustive. -/
theorem timed_weather_routes_by_date_comparison
    (api_key : String) (net : WeatherApiNet) (now_date d : NaiveDate) (address date : String)
    (hmatch : date_time_regex_is_match date = true)
    (hparse : parse_from_str date = some d) :
    (d.toEpochDays ≤ now_date.toEpochDays →
      WeatherApi.get_timed_weather_data api_key net now_date address date =
        WeatherApi.get_history_weather_data api_key net address date ∧
      (WeatherApi.get_timed_weather_data api_key net now_date address date).2 =
        [history_request api_key address date]) ∧
    (now_date.toEpochDays < d.toEpochDays →
      WeatherApi.get_timed_weather_data api_key net now_date address date =
        WeatherApi.get_forecast_weather_data api_key net address
          ((d.toEpochDays - now_date.toEpochDays) + 1) ∧
      (WeatherApi.get_timed_weather_data api_key net now_date address date).2 =
        [forecast_request api_key address ((d.toEpochDays - now_date.toEpochDays) + 1)]) := by
  constructor
  · intro hle
    have hcmp : NaiveDate.cmp d now_date ≠ Ordering.gt := by
      unfold NaiveDate.cmp
      by_cases h1 : d.toEpochDays < now_date.toEpochDays
      · simp [h1]
      · have h2 : ¬ now_date.toEpochDays < d.toEpochDays := by omega
        simp [h1, h2]
    have heq : WeatherApi.get_timed_weather_data api_key net now_date address date =
        WeatherApi.get_history_weather_data api_key net address date := by
      simp only [WeatherApi.get_timed_weather_data, hparse, hcmp]
    exact ⟨heq, by rw [heq]; exact history_requests_eq api_key net address date⟩
  · intro hlt
    have hcmp : NaiveDate.cmp d now_date = Ordering.gt := by
      unfold NaiveDate.cmp
      have h1 : ¬ d.toEpochDays < now_date.toEpochDays := by omega
      rw [if_neg h1, if_pos hlt]
    have heq : WeatherApi.get_timed_weather_data api_key net now_date address date =
        WeatherApi.get_forecast_weather_data api_key net address
          ((d.toEpochDays - now_date.toEpochDays) + 1) := by
      simp only [WeatherApi.get_timed_weather_data, hparse, hcmp]
    exact ⟨heq, by
      rw [heq]
      exact forecast_requests_eq api_key net address ((d.toEpochDays - now_date.toEpochDays) + 1)⟩

/-- C1 witness: the date 2020-01-01, with today 2023-04-10, matches the
pattern, parses, is past, and routes to the historical query for exactly
that date string. -/
theorem timed_weather_routes_by_date_comparison_witness :
    date_time_regex_is_match ("2020-01-01") = true ∧
    parse_from_str ("2020-01-01") = some ⟨2020, 1, 1⟩ ∧
    NaiveDate.toEpochDays ⟨2020, 1, 1⟩ ≤ NaiveDate.toEpochDays ⟨2023, 4, 10⟩ ∧
    (WeatherApi.get_timed_weather_data ("k") trivialWapiNet ⟨2023, 4, 10⟩ ("addr") ("2020-01-01") =
       WeatherApi.get_history_weather_data ("k") trivialWapiNet ("addr") ("2020-01-01") ∧
     (WeatherApi.get_timed_weather_data ("k") trivialWapiNet ⟨2023, 4, 10⟩
        ("addr") ("2020-01-01")).2 = [history_request ("k") ("addr") ("2020-01-01")]) :=
  ⟨by decide, by decide, by decide,
   (timed_weather_routes_by_date_comparison ("k") trivialWapiNet ⟨2023, 4, 10⟩ ⟨2020, 1, 1⟩
      ("addr") ("2020-01-01") (by decide) (by decide)).1 (by decide)⟩

/-- C2: for a strictly future target date, the forecast request carries the
days parameter (target minus today in days) + 1, and when the vendor call
succeeds with a non-empty forecast series, the returned result retains
exactly the last forecast-day entry of the returned series. -/
theorem forecast_window_and_last_day_retention
    (api_key : String) (net : WeatherApiNet) (now_date d : NaiveDate) (address date : String)
    (hparse : parse_from_str date = some d)
    (hfut : now_date.toEpochDays < d.toEpochDays) :
    (WeatherApi.get_timed_weather_data api_key net now_date address date).2 =
      [forecast_request api_key address ((d.toEpochDays - now_date.toEpochDays) + 1)] ∧
    (∀ resp last_day,
      net.timed (forecast_request api_key address ((d.toEpochDays - now_date.toEpochDays) + 1)) =
        .ok resp →
      resp.forecast.forecastday.getLast? = some last_day →
      (WeatherApi.get_timed_weather_data api_key net now_date address date).1 =
        .ok (.FromWeatherApiTimed ⟨⟨[last_day]⟩, resp.location⟩)) := by
  have hcmp : NaiveDate.cmp d now_date = Ordering.gt := by
    unfold NaiveDate.cmp
    have h1 : ¬ d.toEpochDays < now_date.toEpochDays := by omega
    rw [if_neg h1, if_pos hfut]
  have hroute : WeatherApi.get_timed_weather_data api_key net now_date address date =
      WeatherApi.get_forecast_weather_data api_key net address
        ((d.toEpochDays - now_date.toEpochDays) + 1) := by
    simp only [WeatherApi.get_timed_weather_data, hparse, hcmp]
  constructor
  · rw [hroute]
    exact forecast_requests_eq api_key net address ((d.toEpochDays - now_date.toEpochDays) + 1)
  · intro resp last_day hok hlast
    rw [hroute]
    simp [WeatherApi.get_forecast_weather_data, hok, hlast]

/-- C2 witness: with today 2023-04-10 and target 2023-04-12 the computed
window is 3 days and, of the three-day series the oracle returns, only its
last day survives in the result. -/
theorem forecast_window_and_last_day_retention_witness :
    parse_from_str ("2023-04-12") = some ⟨2023, 4, 12⟩ ∧
    NaiveDate.toEpochDays ⟨2023, 4, 10⟩ < NaiveDate.toEpochDays ⟨2023, 4, 12⟩ ∧
    ((NaiveDate.toEpochDays ⟨2023, 4, 12⟩ - NaiveDate.toEpochDays ⟨2023, 4, 10⟩) + 1 = 3) ∧
    (WeatherApi.get_timed_weather_data ("k") forecastNet ⟨2023, 4, 10⟩
       ("addr") ("2023-04-12")).2 = [forecast_request ("k") ("addr") 3] ∧
    (WeatherApi.get_timed_weather_data ("k") forecastNet ⟨2023, 4, 10⟩
       ("addr") ("2023-04-12")).1 =
      .ok (.FromWeatherApiTimed ⟨⟨[⟨sampleDay ("d3")⟩]⟩, sampleLocation⟩) := by
  refine ⟨by decide, by decide, by decide, ?_, ?_⟩
  · exact (forecast_window_and_last_day_retention ("k") forecastNet ⟨2023, 4, 10⟩
      ⟨2023, 4, 12⟩ ("addr") ("2023-04-12") (by decide) (by decide)).1
  · exact (forecast_window_and_last_day_retention ("k") forecastNet ⟨2023, 4, 10⟩
      ⟨2023, 4, 12⟩ ("addr") ("2023-04-12") (by decide) (by decide)).2
      sampleSeries ⟨sampleDay ("d3")⟩ rfl rfl

/-- C3 counterexample: with agent0 active on OpenWeatherMap, processing
configure WeatherApi and then, on the same in-memory agent, current-provider,
reports OpenWeatherMap, not the newly configured WeatherApi: process_command
borrows the agent immutably and only the on-disk record changes. -/
theorem configure_then_current_provider_reports_old_name :
    (process_command agent0 ctx0
        (process_command agent0 ctx0 ⟨ProviderName.OpenWeatherMap⟩
          (.Configure ProviderName.WeatherApi)).store
        .CurrentProvider).stdout = [Output.currentProvider ProviderName.OpenWeatherMap] ∧
    ProviderName.OpenWeatherMap ≠ ProviderName.WeatherApi :=
  ⟨rfl, by decide⟩

/-- C3 amended: configure for a different identifier persists that identifier
(when the configuration write succeeds) but leaves the in-memory agent
unchanged, so a current-provider processed immediately by the same agent
still reports the previous identifier; an agent re-initialized from the
persisted record (a fresh process invocation) reports the new identifier. -/
theorem configure_persists_and_reinit_reports_new_name
    (agent : PromptAgent) (ctx : NetCtx) (store : ApplicationConfig) (p : ProviderName)
    (hne : p ≠ agent.current_provider_name) (hok : ctx.confy_store = .ok ()) :
    (process_command agent ctx store (.Configure p)).store = ⟨p⟩ ∧
    (process_command agent ctx store (.Configure p)).result = .ok () ∧
    (process_command agent ctx
        (process_command agent ctx store (.Configure p)).store .CurrentProvider).stdout =
      [Output.currentProvider agent.current_provider_name] ∧
    (∀ envVar agent2,
      PromptAgent.new envVar (.ok (process_command agent ctx store (.Configure p)).store) =
        .ok agent2 →
      (process_command agent2 ctx ⟨p⟩ .CurrentProvider).stdout =
        [Output.currentProvider p]) := by
  have hstep : process_command agent ctx store (.Configure p) =
      ⟨.ok (), ⟨p⟩, [⟨p⟩],
       [.changingProvider agent.current_provider_name p, .providerChanged], []⟩ := by
    simp [process_command, hne, hok]
  refine ⟨by rw [hstep], by rw [hstep], by rw [hstep]; rfl, ?_⟩
  intro envVar agent2 hnew
  rw [hstep] at hnew
  have hname : agent2.current_provider_name = p :=
    new_ok_name envVar ⟨p⟩ agent2 hnew
  simp [process_command, hname]

/-- C3 amended witness: concrete agent active on OpenWeatherMap, configure
WeatherApi with a working configuration store, then re-initialize from the
persisted record with both credentials present. -/
theorem configure_persists_and_reinit_reports_new_name_witness :
    (process_command agent0 ctx0 ⟨ProviderName.OpenWeatherMap⟩
       (.Configure ProviderName.WeatherApi)).store = ⟨ProviderName.WeatherApi⟩ ∧
    (process_command agent0 ctx0 ⟨ProviderName.OpenWeatherMap⟩
       (.Configure ProviderName.WeatherApi)).result = .ok () ∧
    (process_command agent0 ctx0
        (process_command agent0 ctx0 ⟨ProviderName.OpenWeatherMap⟩
          (.Configure ProviderName.WeatherApi)).store .CurrentProvider).stdout =
      [Output.currentProvider agent0.current_provider_name] ∧
    (∀ envVar agent2,
      PromptAgent.new envVar
          (.ok (process_command agent0 ctx0 ⟨ProviderName.OpenWeatherMap⟩
            (.Configure ProviderName.WeatherApi)).store) = .ok agent2 →
      (process_command agent2 ctx0 ⟨ProviderName.WeatherApi⟩ .CurrentProvider).stdout =
        [Output.currentProvider ProviderName.WeatherApi]) :=
  configure_persists_and_reinit_reports_new_name agent0 ctx0 ⟨ProviderName.OpenWeatherMap⟩
    ProviderName.WeatherApi (by decide) rfl

/-- C4: over every environment, get_available_providers either fails naming a
provider whose environment variable is absent, or returns a credential map
containing an entry for every supported provider name; it never returns a
partial map. -/
theorem load_credentials_all_or_nothing (envVar : String → Option String) :
    (∃ p, get_available_providers envVar = .error p ∧ envVar p.toString = none) ∨
    (∃ m, get_available_providers envVar = .ok m ∧ ∀ p, (m p).isSome = true) :=
  available_providers_spec envVar

/-- C5: a date string that matches the lexical pattern but fails calendar
validation (chrono parse failure) makes the timed-weather operation of either
provider return the date-parse error, with no HTTP request issued. -/
theorem pattern_valid_but_calendar_invalid_rejected
    (api_key : String) (wnet : WeatherApiNet) (onet : OpenWeatherMapNet)
    (now_date : NaiveDate) (address date : String)
    (hmatch : date_time_regex_is_match date = true)
    (hbad : parse_from_str date = none) :
    WeatherApi.get_timed_weather api_key wnet now_date address date =
      (.error .dateParse, []) ∧
    OpenWeatherMap.get_timed_weather api_key onet address date =
      (.error .dateParse, []) := by
  constructor
  · unfold WeatherApi.get_timed_weather WeatherApi.get_timed_weather_data
    rw [hbad]
  · unfold OpenWeatherMap.get_timed_weather
    rw [hbad]

/-- C5 witness: the date string 2000-12-32 matches the pattern, fails
calendar validation, and both providers reject it without any request. -/
theorem pattern_valid_but_calendar_invalid_rejected_witness :
    date_time_regex_is_match ("2000-12-32") = true ∧
    parse_from_str ("2000-12-32") = none ∧
    (WeatherApi.get_timed_weather ("k") trivialWapiNet ⟨2023, 4, 10⟩ ("addr") ("2000-12-32") =
       (.error .dateParse, []) ∧
     OpenWeatherMap.get_timed_weather ("k") trivialOwmNet ("addr") ("2000-12-32") =
       (.error .dateParse, [])) :=
  ⟨by decide, by decide,
   pattern_valid_but_calendar_invalid_rejected ("k") trivialWapiNet trivialOwmNet
     ⟨2023, 4, 10⟩ ("addr") ("2000-12-32") (by decide) (by decide)⟩

/-- C6: a get command whose date string fails the lexical pattern check is
rejected with the invalid-date-format error, leaving the persisted state
untouched and issuing no provider query. -/
theorem lexically_invalid_date_rejected_without_query
    (agent : PromptAgent) (ctx : NetCtx) (store : ApplicationConfig) (address date : String)
    (h : date_time_regex_is_match date = false) :
    process_command agent ctx store (.Get ⟨address, some date⟩) =
      ⟨.error .invalidDateFormat, store, [], [], []⟩ := by
  unfold process_command
  simp [h]

/-- C6 witness: the date string 2023-3-31 (single-digit month) fails the
pattern and the get command is rejected without any provider query. -/
theorem lexically_invalid_date_rejected_without_query_witness :
    date_time_regex_is_match ("2023-3-31") = false ∧
    process_command agent0 ctx0 ⟨ProviderName.OpenWeatherMap⟩
        (.Get ⟨("addr"), some ("2023-3-31")⟩) =
      ⟨.error .invalidDateFormat, ⟨ProviderName.OpenWeatherMap⟩, [], [], []⟩ :=
  ⟨by decide,
   lexically_invalid_date_rejected_without_query agent0 ctx0 ⟨ProviderName.OpenWeatherMap⟩
     ("addr") ("2023-3-31") (by decide)⟩

/-- C7: when OpenWeatherMap's geocoding lookup returns zero matches, both the
current-weather and timed-weather operations fail with the address-not-found
error having issued only the geocoding request; when matches exist, the
follow-up weather request uses the first match's coordinates. -/
theorem geocoding_gates_weather_queries
    (api_key : String) (net : OpenWeatherMapNet) (address : String) :
    (net.geo (geo_request api_key address) = .ok [] →
      OpenWeatherMap.get_current_weather api_key net address =
        (.error (.noCoordinates address), [geo_request api_key address]) ∧
      (∀ date d, parse_from_str date = some d →
        OpenWeatherMap.get_timed_weather api_key net address date =
          (.error (.noCoordinates address), [geo_request api_key address]))) ∧
    (∀ c cs, net.geo (geo_request api_key address) = .ok (c :: cs) →
      (OpenWeatherMap.get_current_weather api_key net address).2 =
        [geo_request api_key address, onecall_request api_key c] ∧
      (∀ date d, parse_from_str date = some d →
        (OpenWeatherMap.get_timed_weather api_key net address date).2 =
          [geo_request api_key address,
           timemachine_request api_key c (d.toEpochDays * 86400 + 12 * 3600)])) := by
  constructor
  · intro hgeo
    constructor
    · simp [OpenWeatherMap.get_current_weather, OpenWeatherMap.get_coordinates_per_place, hgeo]
    · intro date d hd
      simp [OpenWeatherMap.get_timed_weather, OpenWeatherMap.get_coordinates_per_place,
        hd, hgeo]
  · intro c cs hgeo
    constructor
    · cases honecall : net.onecall (onecall_request api_key c) <;>
        simp [OpenWeatherMap.get_current_weather, OpenWeatherMap.get_coordinates_per_place,
          OpenWeatherMap.get_current_weather_parsed_data, hgeo, honecall]
    · intro date d hd
      have h2 := owm_timed_parsed_requests_eq api_key net c (d.toEpochDays * 86400 + 12 * 3600)
      simp only [OpenWeatherMap.get_timed_weather, hd]
      have hcoords : OpenWeatherMap.get_coordinates_per_place api_key net address =
          (.ok c, [geo_request api_key address]) := by
        simp [OpenWeatherMap.get_coordinates_per_place, hgeo]
      rw [hcoords]
      simpa using h2

/-- C7 witness: with a zero-match geocoder the current-weather operation
fails with address-not-found after only the geocoding request, and with a
two-match geocoder the follow-up request uses the first match. -/
theorem geocoding_gates_weather_queries_witness :
    (OpenWeatherMap.get_current_weather ("k") owmNetEmpty ("addr") =
       (.error (.noCoordinates ("addr")), [geo_request ("k") ("addr")])) ∧
    (OpenWeatherMap.get_timed_weather ("k") owmNetEmpty ("addr") ("2020-01-01") =
       (.error (.noCoordinates ("addr")), [geo_request ("k") ("addr")])) ∧
    (OpenWeatherMap.get_current_weather ("k") owmNetTwo ("addr")).2 =
      [geo_request ("k") ("addr"), onecall_request ("k") coord0] :=
  ⟨((geocoding_gates_weather_queries ("k") owmNetEmpty ("addr")).1 rfl).1,
   ((geocoding_gates_weather_queries ("k") owmNetEmpty ("addr")).1 rfl).2
     ("2020-01-01") ⟨2020, 1, 1⟩ (by decide),
   ((geocoding_gates_weather_queries ("k") owmNetTwo ("addr")).2 coord0 [coord1] rfl).1⟩

/-- C8 counterexample: at the concrete credential map missing the WeatherApi
entry and persisted identifier WeatherApi, the credential-lookup step of
agent initialization produces the expect panic and surfaces no event — it
fails rather than falling back to the available OpenWeatherMap identifier,
refuting the claimed fallback behavior. -/
theorem missing_credential_lookup_panics_not_falls_back :
    new_from_available mMissingWapi ProviderName.WeatherApi =
      (.error .panicMissingKey, []) := rfl

/-- C8 amended: agent initialization performs a direct credential lookup for
the persisted identifier: when the identifier is present it becomes active
with its key, and when it is absent initialization hits the expect panic; in
neither case is any fallback attempted or informational event emitted (the
output list is always empty). -/
theorem new_lookup_no_fallback (m : ProviderName → Option String) (p : ProviderName) :
    (m p = none → new_from_available m p = (.error .panicMissingKey, [])) ∧
    (∀ k, m p = some k → new_from_available m p = (.ok ⟨p, k⟩, [])) ∧
    (new_from_available m p).2 = [] := by
  refine ⟨?_, ?_, ?_⟩
  · intro h; unfold new_from_available; rw [h]
  · intro k h; unfold new_from_available; rw [h]
  · unfold new_from_available; cases m p <;> rfl

/-- C8 amended witness: the map missing WeatherApi panics for WeatherApi and
succeeds for OpenWeatherMap, emitting no event either way. -/
theorem new_lookup_no_fallback_witness :
    mMissingWapi ProviderName.WeatherApi = none ∧
    new_from_available mMissingWapi ProviderName.WeatherApi =
      (.error .panicMissingKey, []) ∧
    mMissingWapi ProviderName.OpenWeatherMap = some ("owm-key") ∧
    new_from_available mMissingWapi ProviderName.OpenWeatherMap =
      (.ok ⟨ProviderName.OpenWeatherMap, ("owm-key")⟩, []) :=
  ⟨rfl,
   (new_lookup_no_fallback mMissingWapi ProviderName.WeatherApi).1 rfl,
   rfl,
   (new_lookup_no_fallback mMissingWapi ProviderName.OpenWeatherMap).2.1 ("owm-key") rfl⟩

/-- C9: configure naming the currently active provider reports that the
provider is already in use, performs no write to the persisted configuration,
leaves it unchanged, and issues no request. -/
theorem configure_same_provider_noop
    (agent : PromptAgent) (ctx : NetCtx) (store : ApplicationConfig) :
    process_command agent ctx store (.Configure agent.current_provider_name) =
      ⟨.ok (), store, [], [.alreadyInUse agent.current_provider_name], []⟩ := by
  simp [process_command]

/-- C10: whenever get_available_providers succeeds its map has an entry for
every provider name, so the credential lookup in PromptAgent.new always
succeeds and the expect panic is unreachable: new never produces the
panic outcome, for any environment and any loaded configuration. -/
theorem credential_map_total_and_panic_unreachable :
    (∀ envVar m, get_available_providers envVar = .ok m → ∀ p, (m p).isSome = true) ∧
    (∀ envVar config, PromptAgent.new envVar config ≠ .error .panicMissingKey) := by
  constructor
  · intro envVar m hm p
    rcases available_providers_spec envVar with ⟨q, hq, _⟩ | ⟨m2, hm2, htot⟩
    · rw [hq] at hm; simp at hm
    · rw [hm2] at hm
      injection hm with h
      rw [← h]
      exact htot p
  · intro envVar config h
    cases config with
    | error e => simp [PromptAgent.new] at h
    | ok cfg =>
      rcases available_providers_spec envVar with ⟨q, hq, _⟩ | ⟨m, hm, htot⟩
      · simp [PromptAgent.new, hq] at h
      · have hk := htot cfg.provider_name
        cases hmp : m cfg.provider_name with
        | none => rw [hmp] at hk; simp at hk
        | some k => simp [PromptAgent.new, hm, new_from_available, hmp] at h

/-- C10 witness: the concrete environment carrying both credentials yields
the total map m0, whose WeatherApi entry is present, and initialization from
a persisted WeatherApi never panics. -/
theorem credential_map_total_and_panic_unreachable_witness :
    (m0 ProviderName.WeatherApi).isSome = true ∧
    PromptAgent.new envVar0 (.ok ⟨ProviderName.WeatherApi⟩) ≠ .error .panicMissingKey :=
  ⟨credential_map_total_and_panic_unreachable.1 envVar0 m0 rfl ProviderName.WeatherApi,
   credential_map_total_and_panic_unreachable.2 envVar0 (.ok ⟨ProviderName.WeatherApi⟩)⟩

end Elastio
